import Mathlib

/-!
Shallow embedding of the go-todo HTTP service (src/main.go), a CRUD service
over a single collection of todo records, together with proofs of the
documented behavior of its four request handlers.

The four handlers `fetchTodos`, `createTodo`, `deleteTodo`, `updateTodo` are
translated line by line from src/main.go.  The storage adapter (a MongoDB
collection accessed through the mgo driver) is not part of the repository's
sources; its operations are modelled from the spec's storage-adapter contract
(spec §4.1), with the collection represented as a list of records.  Effects
that reach outside the repository's code are made explicit parameters:

* JSON body decoding (`json.NewDecoder(r.Body).Decode(&t)`) becomes an
  `Except String todo` parameter holding the decode outcome;
* `bson.NewObjectId()` and `time.Now()` become `freshId` / `now` parameters;
* a database round-trip failure becomes an `Option StorageError` parameter
  (`none` = the round trip succeeded).

Machine-level details kept faithful to the source: ids are trimmed with
`strings.TrimSpace` before `bson.IsObjectIdHex` validation; object ids are
12 bytes rendered as 24 lowercase hex characters by `ObjectId.Hex`; the
response messages (including the "succesfully" typo) and the HTTP status
codes 102/200/201/400 are copied verbatim.
-/

namespace GoTodo

/-! ### Characters, whitespace, hex -/

/-- Whitespace recognised by Go's `strings.TrimSpace` on the Latin-1 range:
'\t', '\n', '\v', '\f', '\r', ' ', U+0085 (NEL) and U+00A0 (NBSP). -/
def goIsSpace (c : Char) : Bool :=
  c.toNat == 9 || c.toNat == 10 || c.toNat == 11 || c.toNat == 12 ||
  c.toNat == 13 || c.toNat == 32 || c.toNat == 133 || c.toNat == 160

/-- A hexadecimal digit, upper or lower case, as accepted by Go's
`hex.DecodeString` (used by `bson.IsObjectIdHex`). -/
def isHexChar (c : Char) : Bool :=
  (48 ≤ c.toNat && c.toNat ≤ 57) ||
  (97 ≤ c.toNat && c.toNat ≤ 102) ||
  (65 ≤ c.toNat && c.toNat ≤ 70)

/-- A lowercase hexadecimal digit: `0`-`9` or `a`-`f`. -/
def isLowerHexChar (c : Char) : Bool :=
  (48 ≤ c.toNat && c.toNat ≤ 57) || (97 ≤ c.toNat && c.toNat ≤ 102)

/-- Numeric value of a hex digit (0 on non-digits; only ever applied to
strings that passed `isObjectIdHex`, mirroring `bson.ObjectIdHex`'s
precondition). -/
def hexVal (c : Char) : Nat :=
  if 48 ≤ c.toNat ∧ c.toNat ≤ 57 then c.toNat - 48
  else if 97 ≤ c.toNat ∧ c.toNat ≤ 102 then c.toNat - 87
  else if 65 ≤ c.toNat ∧ c.toNat ≤ 70 then c.toNat - 55
  else 0

/-- The lowercase hex digit for a nibble, as produced by Go's
`hex.EncodeToString` (used by `ObjectId.Hex`). -/
def hexDigit (n : Nat) : Char :=
  if n < 10 then Char.ofNat (48 + n) else Char.ofNat (87 + n)

/-- Two lowercase hex characters for one byte. -/
def byteHex (b : Nat) : List Char :=
  [hexDigit (b / 16), hexDigit (b % 16)]

/-- `strings.TrimSpace` on the character list: drop whitespace from the
front, then from the back. -/
def trimSpaceL (l : List Char) : List Char :=
  (((l.dropWhile goIsSpace).reverse.dropWhile goIsSpace).reverse)

/-- Go's `strings.TrimSpace`. -/
def trimSpace (s : String) : String :=
  ⟨trimSpaceL s.data⟩

/-! ### Object ids (`bson.ObjectId`) -/

/-- A `bson.ObjectId` is 12 bytes; modelled as the list of byte values. -/
abbrev ObjectId := List Nat

/-- The well-formedness invariant of a stored object id: 12 bytes. -/
def validOid (o : ObjectId) : Prop :=
  o.length = 12 ∧ ∀ b ∈ o, b < 256

instance (o : ObjectId) : Decidable (validOid o) := by
  unfold validOid; infer_instance

/-- `ObjectId.Hex`: the bytes rendered as lowercase hex characters. -/
def oidHexL : List Nat → List Char
  | [] => []
  | b :: bs => byteHex b ++ oidHexL bs

/-- `ObjectId.Hex` as a string. -/
def ObjectId.hex (o : ObjectId) : String :=
  ⟨oidHexL o⟩

/-- `bson.IsObjectIdHex`: 24 characters, all hex digits. -/
def isObjectIdHex (s : String) : Bool :=
  s.data.length == 24 && s.data.all isHexChar

/-- Byte values of consecutive pairs of hex characters, as decoded by
`hex.DecodeString`. -/
def hexPairs : List Char → List Nat
  | c1 :: c2 :: rest => (hexVal c1 * 16 + hexVal c2) :: hexPairs rest
  | _ => []

/-- `bson.ObjectIdHex`: parse a 24-hex-character string back into the
12 bytes (only applied after an `isObjectIdHex` check, as in the source). -/
def objectIdHex (s : String) : ObjectId :=
  hexPairs s.data

/-! ### Data model (src/main.go, `todoModel` and `todo`) -/

/-- The storage-side record (`todoModel` in src/main.go): object id, title,
completed flag, creation time.  Time is modelled as a numeric instant. -/
structure todoModel where
  ID : ObjectId
  Title : String
  Completed : Bool
  CreatedAt : Nat
deriving DecidableEq

/-- The wire-side record (`todo` in src/main.go): hex-string id, title,
completed flag, creation time. -/
structure todo where
  ID : String
  Title : String
  Completed : Bool
  CreatedAt : Nat
deriving DecidableEq

/-- The `todos` collection: all stored records, in storage order. -/
abbrev Storage := List todoModel

/-! ### Storage adapter (spec §4.1; the mgo driver is outside src/) -/

/-- Modelled from the spec: `list()` returns all records in the collection
in storage-native order (spec §4.1). -/
def listAll (s : Storage) : List todoModel := s

/-- Modelled from the spec: `insert(Todo)` persists a new record whose id
and timestamp were supplied by the caller (spec §4.1). -/
def insertRecord (s : Storage) (t : todoModel) : Storage := s ++ [t]

/-- Modelled from the spec: `updateByID(id, title, completed)` replaces the
title/completed fields of the record matching `id`; a non-matching id is not
an error — no existence check is performed (spec §4.1).  Ids are unique in
the collection, so at most one record is affected. -/
def updateById (s : Storage) (oid : ObjectId) (title : String)
    (completed : Bool) : Storage :=
  s.map fun r =>
    if r.ID = oid then { r with Title := title, Completed := completed } else r

/-- Modelled from the spec: `removeByID(id)` deletes the record matching
`id`; if no record matches, the remove fails with a not-found condition
(spec §4.1).  `none` is that not-found failure. -/
def removeId (s : Storage) (oid : ObjectId) : Option Storage :=
  if s.any (fun r => r.ID = oid) then
    some (s.filter fun r => ¬ r.ID = oid)
  else
    none

/-! ### Responses -/

/-- A database round-trip failure (connection error and the like), carried
verbatim into the response where the source embeds the error object. -/
inductive StorageError where
  | fault (msg : String)
deriving DecidableEq

/-- The JSON payloads the handlers render (via `rnd.JSON`). -/
inductive Body where
  /-- `renderer.M{"message": ...}` -/
  | msg (message : String)
  /-- `renderer.M{"message": ..., "todo_id": ...}` -/
  | msgId (message : String) (todo_id : String)
  /-- `renderer.M{"message": ..., "error": err}` -/
  | msgErr (message : String) (error : StorageError)
  /-- the raw decode error rendered directly (`rnd.JSON(w, ..., err)`) -/
  | decodeErr (e : String)
  /-- `renderer.M{"data": ...}` -/
  | data (d : List todo)
deriving DecidableEq

/-- One written HTTP response: a status code and a JSON body. -/
structure Written where
  status : Nat
  body : Body
deriving DecidableEq

def statusProcessing : Nat := 102
def statusOK : Nat := 200
def statusCreated : Nat := 201
def statusBadRequest : Nat := 400

/-! ### Handlers (src/main.go lines 80-194) -/

/-- `fetchTodos` (src/main.go:80-102): on a find failure answer 102 with the
message and the error; otherwise map every stored record to its wire shape
(hex id) and answer 200 with the list under `data`. -/
def fetchTodos (findErr : Option StorageError) (s : Storage) : Written :=
  match findErr with
  | some e => ⟨statusProcessing, .msgErr "Failed to fetch the Todos." e⟩
  | none =>
      let todoList := (listAll s).map fun t =>
        todo.mk (ObjectId.hex t.ID) t.Title t.Completed t.CreatedAt
      ⟨statusOK, .data todoList⟩

/-- `createTodo` (src/main.go:104-132): answer 102 with the raw error when
the body does not decode; 400 when the decoded title is empty; otherwise
build a record with a fresh id and the current time, insert it, answering
102 on an insert failure and 201 with the generated hex id on success. -/
def createTodo (body : Except String todo) (freshId : ObjectId) (now : Nat)
    (insertErr : Option StorageError) (s : Storage) : Written × Storage :=
  match body with
  | .error e => (⟨statusProcessing, .decodeErr e⟩, s)
  | .ok t =>
      if t.Title = "" then
        (⟨statusBadRequest, .msg "Todo had no title!"⟩, s)
      else
        let tm : todoModel := ⟨freshId, t.Title, t.Completed, now⟩
        match insertErr with
        | some _ => (⟨statusProcessing, .msg "Failed to save todo."⟩, s)
        | none =>
            (⟨statusCreated, .msgId "Todo created successfully!" (ObjectId.hex tm.ID)⟩,
             insertRecord s tm)

/-- `deleteTodo` (src/main.go:134-156): trim the path id; 400 when it is not
a valid object-id hex; then remove by id, answering 102 with the echoed id
on any remove failure (a database fault or the not-found condition) and 200
with the echoed id on success. -/
def deleteTodo (idParam : String) (removeErr : Option StorageError)
    (s : Storage) : Written × Storage :=
  let id := trimSpace idParam
  if !(isObjectIdHex id) then
    (⟨statusBadRequest, .msg "Id is invalid!"⟩, s)
  else
    match removeErr with
    | some _ => (⟨statusProcessing, .msgId "Failed to delete todo!" id⟩, s)
    | none =>
        match removeId s (objectIdHex id) with
        | none => (⟨statusProcessing, .msgId "Failed to delete todo!" id⟩, s)
        | some s2 => (⟨statusOK, .msgId "Todo deleted succesfully!" id⟩, s2)

/-- `updateTodo` (src/main.go:158-194): trim the path id; 400 when it is not
a valid object-id hex; 102 with the raw error when the body does not decode;
400 when the decoded title is empty; then update title/completed by id,
answering 102 with the error on an update failure — and writing nothing at
all on success (the success path of the source ends without a response). -/
def updateTodo (idParam : String) (body : Except String todo)
    (updateErr : Option StorageError) (s : Storage) :
    Option Written × Storage :=
  let id := trimSpace idParam
  if !(isObjectIdHex id) then
    (some ⟨statusBadRequest, .msg "The id is invalid!"⟩, s)
  else
    match body with
    | .error e => (some ⟨statusProcessing, .decodeErr e⟩, s)
    | .ok t =>
        if t.Title = "" then
          (some ⟨statusBadRequest, .msg "The title is empty!"⟩, s)
        else
          match updateErr with
          | some e => (some ⟨statusProcessing, .msgErr "Failed to update todo!" e⟩, s)
          | none => (none, updateById s (objectIdHex id) t.Title t.Completed)

/-! ### Helper lemmas: whitespace trimming -/

theorem dropWhile_append_all {p : Char → Bool} {a : List Char} (b : List Char)
    (h : ∀ c ∈ a, p c = true) :
    (a ++ b).dropWhile p = b.dropWhile p := by
  induction a with
  | nil => rfl
  | cons x xs ih =>
      simp only [List.cons_append, List.dropWhile_cons, h x (by simp)]
      exact ih fun c hc => h c (by simp [hc])

theorem dropWhile_all_true {p : Char → Bool} {b : List Char}
    (h : ∀ c ∈ b, p c = true) : b.dropWhile p = [] := by
  have := dropWhile_append_all (p := p) (a := b) [] h
  simpa using this

theorem dropWhile_all_false {p : Char → Bool} {l : List Char}
    (h : ∀ c ∈ l, p c = false) : l.dropWhile p = l := by
  cases l with
  | nil => rfl
  | cons x xs => simp [List.dropWhile_cons, h x (by simp)]

theorem dropWhile_append_split (p : Char → Bool) (l b : List Char) :
    (l ++ b).dropWhile p =
      if (l.dropWhile p).isEmpty then b.dropWhile p
      else l.dropWhile p ++ b := by
  induction l with
  | nil => simp
  | cons x xs ih =>
      by_cases hx : p x
      · simpa [List.dropWhile_cons, hx] using ih
      · simp [List.dropWhile_cons, hx]

theorem trimSpaceL_left {a : List Char} (l : List Char)
    (h : ∀ c ∈ a, goIsSpace c = true) :
    trimSpaceL (a ++ l) = trimSpaceL l := by
  unfold trimSpaceL
  rw [dropWhile_append_all l h]

theorem trimSpaceL_right {b : List Char} (l : List Char)
    (h : ∀ c ∈ b, goIsSpace c = true) :
    trimSpaceL (l ++ b) = trimSpaceL l := by
  unfold trimSpaceL
  rw [dropWhile_append_split]
  rcases hd : l.dropWhile goIsSpace with _ | ⟨x, xs⟩
  · simp [dropWhile_all_true h]
  · rw [if_neg (by simp), List.reverse_append,
      dropWhile_append_all _ fun c hc => h c (List.mem_reverse.mp hc)]

theorem trimSpaceL_no_space {l : List Char}
    (h : ∀ c ∈ l, goIsSpace c = false) : trimSpaceL l = l := by
  unfold trimSpaceL
  rw [dropWhile_all_false h,
    dropWhile_all_false fun c hc => h c (List.mem_reverse.mp hc),
    List.reverse_reverse]

theorem trimSpace_surrounded (pre raw suf : String)
    (hpre : ∀ c ∈ pre.data, goIsSpace c = true)
    (hsuf : ∀ c ∈ suf.data, goIsSpace c = true) :
    trimSpace (pre ++ raw ++ suf) = trimSpace raw := by
  unfold trimSpace
  rw [String.data_append, String.data_append, List.append_assoc,
    trimSpaceL_left _ hpre, trimSpaceL_right _ hsuf]

/-! ### Helper lemmas: hex encoding and decoding of object ids -/

theorem hexDigit_lowerHex {n : Nat} (h : n < 16) :
    isLowerHexChar (hexDigit n) = true := by
  interval_cases n <;> decide

theorem hexVal_hexDigit {n : Nat} (h : n < 16) : hexVal (hexDigit n) = n := by
  interval_cases n <;> decide

theorem isHexChar_of_lower {c : Char} (h : isLowerHexChar c = true) :
    isHexChar c = true := by
  simp only [isLowerHexChar, Bool.or_eq_true, Bool.and_eq_true,
    decide_eq_true_eq] at h
  simp only [isHexChar, Bool.or_eq_true, Bool.and_eq_true, decide_eq_true_eq]
  omega

theorem not_space_of_lowerHex {c : Char} (h : isLowerHexChar c = true) :
    goIsSpace c = false := by
  simp only [isLowerHexChar, Bool.or_eq_true, Bool.and_eq_true,
    decide_eq_true_eq] at h
  simp only [goIsSpace, Bool.or_eq_false_iff, beq_eq_false_iff_ne, ne_eq]
  omega

theorem byteHex_lowerHex {b : Nat} (h : b < 256) :
    ∀ c ∈ byteHex b, isLowerHexChar c = true := by
  have h1 : b / 16 < 16 := Nat.div_lt_of_lt_mul (by omega)
  have h2 : b % 16 < 16 := Nat.mod_lt _ (by omega)
  intro c hc
  simp only [byteHex, List.mem_cons, List.not_mem_nil, or_false] at hc
  rcases hc with rfl | rfl
  · exact hexDigit_lowerHex h1
  · exact hexDigit_lowerHex h2

theorem hexPairs_byteHex {b : Nat} (h : b < 256) (rest : List Char) :
    hexPairs (byteHex b ++ rest) = b :: hexPairs rest := by
  have h1 : b / 16 < 16 := Nat.div_lt_of_lt_mul (by omega)
  have h2 : b % 16 < 16 := Nat.mod_lt _ (by omega)
  simp only [byteHex, List.cons_append, List.nil_append, hexPairs,
    hexVal_hexDigit h1, hexVal_hexDigit h2]
  congr 1
  omega

theorem oidHexL_length (o : List Nat) : (oidHexL o).length = 2 * o.length := by
  induction o with
  | nil => rfl
  | cons b bs ih =>
      simp only [oidHexL, byteHex, List.length_append, List.length_cons,
        List.length_nil, ih]
      omega

theorem oidHexL_lowerHex {o : List Nat} (h : ∀ b ∈ o, b < 256) :
    ∀ c ∈ oidHexL o, isLowerHexChar c = true := by
  induction o with
  | nil => intro c hc; simp [oidHexL] at hc
  | cons b bs ih =>
      intro c hc
      rcases List.mem_append.mp hc with hc | hc
      · exact byteHex_lowerHex (h b (by simp)) c hc
      · exact ih (fun x hx => h x (by simp [hx])) c hc

theorem hexPairs_oidHexL {o : List Nat} (h : ∀ b ∈ o, b < 256) :
    hexPairs (oidHexL o) = o := by
  induction o with
  | nil => rfl
  | cons b bs ih =>
      show hexPairs (byteHex b ++ oidHexL bs) = b :: bs
      rw [hexPairs_byteHex (h b (by simp)),
        ih fun x hx => h x (by simp [hx])]

theorem hex_data (o : ObjectId) : (ObjectId.hex o).data = oidHexL o := rfl

theorem isObjectIdHex_hex {o : ObjectId} (h : validOid o) :
    isObjectIdHex (ObjectId.hex o) = true := by
  obtain ⟨hlen, hb⟩ := h
  simp only [isObjectIdHex, hex_data, Bool.and_eq_true, beq_iff_eq,
    oidHexL_length, hlen, List.all_eq_true]
  exact ⟨by trivial, fun c hc => isHexChar_of_lower (oidHexL_lowerHex hb c hc)⟩

theorem objectIdHex_hex {o : ObjectId} (h : validOid o) :
    objectIdHex (ObjectId.hex o) = o := by
  show hexPairs (ObjectId.hex o).data = o
  rw [hex_data]
  exact hexPairs_oidHexL h.2

theorem trimSpace_hex {o : ObjectId} (h : validOid o) :
    trimSpace (ObjectId.hex o) = ObjectId.hex o := by
  show (⟨trimSpaceL (ObjectId.hex o).data⟩ : String) = ⟨oidHexL o⟩
  rw [hex_data]
  exact congrArg String.mk (trimSpaceL_no_space fun c hc =>
    not_space_of_lowerHex (oidHexL_lowerHex h.2 c hc))

/-! ### Helper lemmas: the update operation -/

theorem updateTodo_success_eq (raw : String) (t : todo) (s : Storage)
    (hid : isObjectIdHex (trimSpace raw) = true) (ht : ¬ t.Title = "") :
    updateTodo raw (.ok t) none s =
      (none, updateById s (objectIdHex (trimSpace raw)) t.Title t.Completed) := by
  simp [updateTodo, hid, ht]

theorem updateById_map_ID (s : Storage) (oid : ObjectId) (title : String)
    (c : Bool) :
    (updateById s oid title c).map todoModel.ID = s.map todoModel.ID := by
  unfold updateById
  rw [List.map_map]
  refine List.map_congr_left fun r _ => ?_
  by_cases h : r.ID = oid <;> simp [h]

theorem updateById_map_CreatedAt (s : Storage) (oid : ObjectId)
    (title : String) (c : Bool) :
    (updateById s oid title c).map todoModel.CreatedAt =
      s.map todoModel.CreatedAt := by
  unfold updateById
  rw [List.map_map]
  refine List.map_congr_left fun r _ => ?_
  by_cases h : r.ID = oid <;> simp [h]

theorem updateById_mem_match {s : Storage} {r : todoModel} {oid : ObjectId}
    {title : String} {c : Bool} (hr : r ∈ s) (h : r.ID = oid) :
    { r with Title := title, Completed := c } ∈ updateById s oid title c := by
  unfold updateById
  exact List.mem_map.mpr ⟨r, hr, by simp [h]⟩

theorem updateById_mem_nomatch {s : Storage} {r : todoModel} {oid : ObjectId}
    {title : String} {c : Bool} (hr : r ∈ s) (h : ¬ r.ID = oid) :
    r ∈ updateById s oid title c := by
  unfold updateById
  exact List.mem_map.mpr ⟨r, hr, by simp [h]⟩

theorem updateById_no_match {s : Storage} {oid : ObjectId} (title : String)
    (c : Bool) (h : ∀ r ∈ s, ¬ r.ID = oid) :
    updateById s oid title c = s := by
  unfold updateById
  conv_rhs => rw [← List.map_id s]
  exact List.map_congr_left fun r hr => by simp [h r hr]

/-! ### The claims -/

/-- C1: an update request with a well-formed id matching a stored record, a
decodable body and a non-empty title leaves every record's `ID` and
`CreatedAt` unchanged; the matching record gets exactly the new title and
completed flag, and non-matching records are untouched. -/
theorem update_preserves_id_createdAt (raw : String) (t : todo) (s : Storage)
    (hid : isObjectIdHex (trimSpace raw) = true) (ht : ¬ t.Title = "")
    (_hmatch : ∃ r ∈ s, r.ID = objectIdHex (trimSpace raw)) :
    ((updateTodo raw (.ok t) none s).2.map todoModel.ID = s.map todoModel.ID)
    ∧ ((updateTodo raw (.ok t) none s).2.map todoModel.CreatedAt
        = s.map todoModel.CreatedAt)
    ∧ (∀ r ∈ s, r.ID = objectIdHex (trimSpace raw) →
        { r with Title := t.Title, Completed := t.Completed }
          ∈ (updateTodo raw (.ok t) none s).2)
    ∧ (∀ r ∈ s, ¬ r.ID = objectIdHex (trimSpace raw) →
        r ∈ (updateTodo raw (.ok t) none s).2) := by
  rw [updateTodo_success_eq raw t s hid ht]
  exact ⟨updateById_map_ID .., updateById_map_CreatedAt ..,
    fun r hr h => updateById_mem_match hr h,
    fun r hr h => updateById_mem_nomatch hr h⟩

/-- Witness for C1 at a concrete id, body and one-record store. -/
theorem update_preserves_id_createdAt_witness :
    (isObjectIdHex (trimSpace "0123456789abcdef01234567") = true)
    ∧ (¬ ("new title" : String) = "")
    ∧ (∃ r ∈ [todoModel.mk (objectIdHex "0123456789abcdef01234567") "old" false 5],
        r.ID = objectIdHex (trimSpace "0123456789abcdef01234567"))
    ∧ (((updateTodo "0123456789abcdef01234567"
          (.ok ⟨"", "new title", true, 0⟩) none
          [todoModel.mk (objectIdHex "0123456789abcdef01234567") "old" false 5]).2.map
            todoModel.CreatedAt)
        = [5]) := by
  refine ⟨by decide, by decide, by decide, ?_⟩
  have h := update_preserves_id_createdAt "0123456789abcdef01234567"
    ⟨"", "new title", true, 0⟩
    [todoModel.mk (objectIdHex "0123456789abcdef01234567") "old" false 5]
    (by decide) (by decide) (by decide)
  rw [h.2.1]
  decide

/-- C2: an update request with a well-formed id, a decodable body and a
non-empty title, where no stored record matches the id, produces the same
success outcome as a matching update — no response is written and the
store is unchanged (no existence check). -/
theorem update_nonexistent_id_not_error (raw : String) (t : todo)
    (s : Storage) (hid : isObjectIdHex (trimSpace raw) = true)
    (ht : ¬ t.Title = "")
    (hnone : ∀ r ∈ s, ¬ r.ID = objectIdHex (trimSpace raw)) :
    updateTodo raw (.ok t) none s = (none, s) := by
  rw [updateTodo_success_eq raw t s hid ht,
    updateById_no_match _ _ hnone]

/-- Witness for C2: updating a well-formed id over an empty store. -/
theorem update_nonexistent_id_not_error_witness :
    (isObjectIdHex (trimSpace "0123456789abcdef01234567") = true)
    ∧ (¬ ("t" : String) = "")
    ∧ updateTodo "0123456789abcdef01234567" (.ok ⟨"", "t", false, 0⟩) none []
        = (none, []) :=
  ⟨by decide, by decide,
    update_nonexistent_id_not_error "0123456789abcdef01234567"
      ⟨"", "t", false, 0⟩ [] (by decide) (by decide) (by decide)⟩

/-- C3: when id validation, body decoding and title validation all pass and
the storage update succeeds, the update handler writes no response at all —
neither a body nor a status code (the success path is unterminated). -/
theorem update_success_unterminated (raw : String) (t : todo) (s : Storage)
    (hid : isObjectIdHex (trimSpace raw) = true) (ht : ¬ t.Title = "") :
    (updateTodo raw (.ok t) none s).1 = none := by
  rw [updateTodo_success_eq raw t s hid ht]

/-- Witness for C3 at a concrete id, body and store. -/
theorem update_success_unterminated_witness :
    (isObjectIdHex (trimSpace "abcdefabcdefabcdefabcdef") = true)
    ∧ (¬ ("buy milk" : String) = "")
    ∧ (updateTodo "abcdefabcdefabcdefabcdef" (.ok ⟨"", "buy milk", false, 0⟩)
        none []).1 = none :=
  ⟨by decide, by decide,
    update_success_unterminated "abcdefabcdefabcdefabcdef"
      ⟨"", "buy milk", false, 0⟩ [] (by decide) (by decide)⟩

/-- C5: given a decodable create body, the handler answers 400 exactly when
the decoded title is the empty string, whatever the completed flag and the
rest of the request; a non-empty title (whitespace included — nothing is
trimmed) proceeds to insertion. -/
theorem create_badRequest_iff_empty_title (t : todo) (freshId : ObjectId)
    (now : Nat) (insertErr : Option StorageError) (s : Storage) :
    ((createTodo (.ok t) freshId now insertErr s).1.status = statusBadRequest
      ↔ t.Title = "")
    ∧ (¬ t.Title = "" →
        (createTodo (.ok t) freshId now none s).1.status = statusCreated
        ∧ (createTodo (.ok t) freshId now none s).2
            = insertRecord s ⟨freshId, t.Title, t.Completed, now⟩) := by
  constructor
  · by_cases h : t.Title = ""
    · simp [createTodo, h, statusBadRequest]
    · cases insertErr <;>
        simp [createTodo, h, statusBadRequest, statusProcessing, statusCreated]
  · intro h
    simp [createTodo, h]

/-- Witness for C5: a title of one space is not empty and is accepted. -/
theorem create_badRequest_iff_empty_title_witness :
    ((createTodo (.ok ⟨"", " ", true, 0⟩) [] 0 none []).1.status
        = statusBadRequest ↔ (" " : String) = "")
    ∧ (¬ (" " : String) = "")
    ∧ (createTodo (.ok ⟨"", " ", true, 0⟩) [] 0 none []).1.status
        = statusCreated := by
  have h := create_badRequest_iff_empty_title ⟨"", " ", true, 0⟩ [] 0 none []
  exact ⟨h.1, by decide, (h.2 (by decide)).1⟩

/-- C9: in the delete and update handlers the path id is trimmed of
surrounding whitespace before validation, so an id wrapped in whitespace is
handled exactly like the bare id. -/
theorem id_trimmed_before_validation (pre suf raw : String)
    (body : Except String todo) (e : Option StorageError) (s : Storage)
    (hpre : ∀ c ∈ pre.data, goIsSpace c = true)
    (hsuf : ∀ c ∈ suf.data, goIsSpace c = true) :
    deleteTodo (pre ++ raw ++ suf) e s = deleteTodo raw e s
    ∧ updateTodo (pre ++ raw ++ suf) body e s = updateTodo raw body e s := by
  have h := trimSpace_surrounded pre raw suf hpre hsuf
  constructor
  · simp only [deleteTodo, h]
  · simp only [updateTodo, h]

/-- Witness for C9: a hex id surrounded by single spaces. -/
theorem id_trimmed_before_validation_witness :
    (∀ c ∈ (" " : String).data, goIsSpace c = true)
    ∧ deleteTodo (" " ++ "abcdefabcdefabcdefabcdef" ++ " ") none []
        = deleteTodo "abcdefabcdefabcdefabcdef" none []
    ∧ updateTodo (" " ++ "abcdefabcdefabcdefabcdef" ++ " ") (.error "x") none []
        = updateTodo "abcdefabcdefabcdefabcdef" (.error "x") none [] := by
  have h := id_trimmed_before_validation " " " " "abcdefabcdefabcdefabcdef"
    (.error "x") none [] (by decide) (by decide)
  exact ⟨by decide, h.1, h.2⟩

/-- C10: the create handler discards any id or created_at carried by the
request body — the stored record always gets the freshly generated id and
the server clock — so bodies differing only in those fields behave
identically. -/
theorem create_ignores_body_id_createdAt (t : todo) (a b : String)
    (n m : Nat) (freshId : ObjectId) (now : Nat)
    (insertErr : Option StorageError) (s : Storage) :
    (createTodo (.ok { t with ID := a, CreatedAt := n }) freshId now insertErr s
      = createTodo (.ok { t with ID := b, CreatedAt := m }) freshId now insertErr s)
    ∧ (¬ t.Title = "" →
        (createTodo (.ok t) freshId now none s).2
          = s ++ [⟨freshId, t.Title, t.Completed, now⟩]) := by
  constructor
  · rfl
  · intro h
    simp [createTodo, h, insertRecord]

/-- Witness for C10: two bodies that differ only in id and created_at. -/
theorem create_ignores_body_id_createdAt_witness :
    (createTodo (.ok ⟨"x", "t1", false, 9⟩) [1] 7 none []
      = createTodo (.ok ⟨"y", "t1", false, 3⟩) [1] 7 none [])
    ∧ (¬ ("t1" : String) = "")
    ∧ (createTodo (.ok ⟨"x", "t1", false, 9⟩) [1] 7 none []).2
        = [⟨[1], "t1", false, 7⟩] := by
  have h := create_ignores_body_id_createdAt ⟨"x", "t1", false, 9⟩
    "x" "y" 9 3 [1] 7 none []
  refine ⟨h.1, by decide, ?_⟩
  rw [h.2 (by decide)]
  rfl

/-- C4: across all four handlers, every body-decode failure and every
storage failure is answered with status 102 (Processing) and every
validation failure (malformed id, empty title) with status 400; the only
statuses any handler can write are 102, 200, 201 and 400. -/
theorem failure_status_discipline (e : StorageError) (d : String) (t : todo)
    (freshId : ObjectId) (now : Nat) (raw : String) (s : Storage)
    (ferr : Option StorageError) :
    ((fetchTodos (some e) s).status = statusProcessing)
    ∧ ((fetchTodos ferr s).status = statusProcessing
        ∨ (fetchTodos ferr s).status = statusOK)
    ∧ ((createTodo (.error d) freshId now ferr s).1.status = statusProcessing)
    ∧ ((createTodo (.ok { t with Title := "" }) freshId now ferr s).1.status
        = statusBadRequest)
    ∧ (¬ t.Title = "" →
        (createTodo (.ok t) freshId now (some e) s).1.status = statusProcessing)
    ∧ (∀ b : Except String todo,
        (createTodo b freshId now ferr s).1.status = statusProcessing
        ∨ (createTodo b freshId now ferr s).1.status = statusBadRequest
        ∨ (createTodo b freshId now ferr s).1.status = statusCreated)
    ∧ (isObjectIdHex (trimSpace raw) = false →
        (deleteTodo raw ferr s).1.status = statusBadRequest)
    ∧ (isObjectIdHex (trimSpace raw) = true →
        (deleteTodo raw (some e) s).1.status = statusProcessing)
    ∧ ((deleteTodo raw ferr s).1.status = statusProcessing
        ∨ (deleteTodo raw ferr s).1.status = statusBadRequest
        ∨ (deleteTodo raw ferr s).1.status = statusOK)
    ∧ (isObjectIdHex (trimSpace raw) = false →
        (updateTodo raw (.ok t) ferr s).1
          = some ⟨statusBadRequest, .msg "The id is invalid!"⟩)
    ∧ (isObjectIdHex (trimSpace raw) = true →
        (updateTodo raw (.error d) ferr s).1
          = some ⟨statusProcessing, .decodeErr d⟩)
    ∧ (isObjectIdHex (trimSpace raw) = true →
        (updateTodo raw (.ok { t with Title := "" }) ferr s).1
          = some ⟨statusBadRequest, .msg "The title is empty!"⟩)
    ∧ (isObjectIdHex (trimSpace raw) = true → ¬ t.Title = "" →
        (updateTodo raw (.ok t) (some e) s).1
          = some ⟨statusProcessing, .msgErr "Failed to update todo!" e⟩)
    ∧ (∀ b : Except String todo, ∀ w : Written,
        (updateTodo raw b ferr s).1 = some w →
        w.status = statusProcessing ∨ w.status = statusBadRequest) := by
  refine ⟨rfl, ?_, rfl, ?_, ?_, ?_, ?_, ?_, ?_, ?_, ?_, ?_, ?_, ?_⟩
  · cases ferr <;> simp [fetchTodos]
  · simp [createTodo]
  · intro h; simp [createTodo, h]
  · intro b
    rcases b with _ | t'
    · simp [createTodo]
    · by_cases h : t'.Title = "" <;> cases ferr <;> simp [createTodo, h]
  · intro h; simp [deleteTodo, h]
  · intro h; simp [deleteTodo, h]
  · by_cases h : isObjectIdHex (trimSpace raw) = true
    · cases ferr with
      | some e' => simp [deleteTodo, h]
      | none =>
          cases hrem : removeId s (objectIdHex (trimSpace raw)) <;>
            simp [deleteTodo, h, hrem]
    · simp [deleteTodo, Bool.eq_false_iff.mpr h]
  · intro h; simp [updateTodo, h]
  · intro h; simp [updateTodo, h]
  · intro h; simp [updateTodo, h]
  · intro h h'; simp [updateTodo, h, h']
  · intro b w hw
    by_cases h : isObjectIdHex (trimSpace raw) = true
    · rcases b with _ | t'
      · simp [updateTodo, h] at hw
        simp [← hw]
      · by_cases h' : t'.Title = ""
        · simp [updateTodo, h, h'] at hw
          simp [← hw]
        · cases ferr with
          | some e' =>
              simp [updateTodo, h, h'] at hw
              simp [← hw]
          | none => simp [updateTodo, h, h'] at hw
    · simp [updateTodo, Bool.eq_false_iff.mpr h] at hw
      simp [← hw]

/-- Witness for C4: each failure shape at a concrete request, over the
empty store, with a malformed id and with a well-formed one. -/
theorem failure_status_discipline_witness :
    ((fetchTodos (some (.fault "db down")) []).status = statusProcessing)
    ∧ ((createTodo (.error "bad json") [] 0 none []).1.status
        = statusProcessing)
    ∧ ((createTodo (.ok ⟨"", "", false, 0⟩) [] 0 none []).1.status
        = statusBadRequest)
    ∧ (¬ ("task" : String) = "")
    ∧ ((createTodo (.ok ⟨"", "task", false, 0⟩) [] 0
          (some (.fault "db down")) []).1.status = statusProcessing)
    ∧ (isObjectIdHex (trimSpace "not-an-id") = false)
    ∧ ((deleteTodo "not-an-id" none []).1.status = statusBadRequest)
    ∧ (isObjectIdHex (trimSpace "abcdefabcdefabcdefabcdef") = true)
    ∧ ((deleteTodo "abcdefabcdefabcdefabcdef"
          (some (.fault "db down")) []).1.status = statusProcessing)
    ∧ ((updateTodo "not-an-id" (.ok ⟨"", "task", false, 0⟩) none []).1
        = some ⟨statusBadRequest, .msg "The id is invalid!"⟩)
    ∧ ((updateTodo "abcdefabcdefabcdefabcdef" (.error "bad json") none []).1
        = some ⟨statusProcessing, .decodeErr "bad json"⟩)
    ∧ ((updateTodo "abcdefabcdefabcdefabcdef" (.ok ⟨"", "", false, 0⟩)
          none []).1 = some ⟨statusBadRequest, .msg "The title is empty!"⟩)
    ∧ ((updateTodo "abcdefabcdefabcdefabcdef" (.ok ⟨"", "task", false, 0⟩)
          (some (.fault "db down")) []).1
        = some ⟨statusProcessing, .msgErr "Failed to update todo!"
            (.fault "db down")⟩) := by
  obtain ⟨a1, _, a3, a4, a5, _, a7, _, _, a10, _, _, _, _⟩ :=
    failure_status_discipline (.fault "db down") "bad json"
      ⟨"", "task", false, 0⟩ [] 0 "not-an-id" [] none
  obtain ⟨_, _, _, _, _, _, _, b8, _, _, b11, b12, b13, _⟩ :=
    failure_status_discipline (.fault "db down") "bad json"
      ⟨"", "task", false, 0⟩ [] 0 "abcdefabcdefabcdefabcdef" [] none
  exact ⟨a1, a3, a4, by decide, a5 (by decide), by decide, a7 (by decide),
    by decide, b8 (by decide), a10 (by decide), b11 (by decide),
    b12 (by decide), b13 (by decide) (by decide)⟩

/-- C6: a delete request with a syntactically invalid id is answered 400
and leaves the store untouched; a well-formed id matching no stored record
makes the remove fail not-found, answered with the processing status and
the echoed id, again leaving the store untouched. -/
theorem delete_invalid_and_missing (raw : String) (e : Option StorageError)
    (s : Storage) :
    (isObjectIdHex (trimSpace raw) = false →
      deleteTodo raw e s = (⟨statusBadRequest, .msg "Id is invalid!"⟩, s))
    ∧ (isObjectIdHex (trimSpace raw) = true →
      (∀ r ∈ s, ¬ r.ID = objectIdHex (trimSpace raw)) →
      deleteTodo raw none s
        = (⟨statusProcessing, .msgId "Failed to delete todo!" (trimSpace raw)⟩,
           s)) := by
  constructor
  · intro h; simp [deleteTodo, h]
  · intro h hn
    have hrem : removeId s (objectIdHex (trimSpace raw)) = none := by
      unfold removeId
      rw [if_neg]
      simp only [List.any_eq_true, decide_eq_true_eq, not_exists, not_and]
      exact hn
    simp [deleteTodo, h, hrem]

/-- Witness for C6: a malformed id, and a well-formed id over the empty
store. -/
theorem delete_invalid_and_missing_witness :
    (isObjectIdHex (trimSpace "not-an-id") = false)
    ∧ deleteTodo "not-an-id" none []
        = (⟨statusBadRequest, .msg "Id is invalid!"⟩, [])
    ∧ (isObjectIdHex (trimSpace "0123456789abcdef01234567") = true)
    ∧ deleteTodo "0123456789abcdef01234567" none []
        = (⟨statusProcessing,
            .msgId "Failed to delete todo!" (trimSpace "0123456789abcdef01234567")⟩,
           []) := by
  have h1 := delete_invalid_and_missing "not-an-id" none []
  have h2 := delete_invalid_and_missing "0123456789abcdef01234567" none []
  exact ⟨by decide, h1.1 (by decide), by decide,
    h2.2 (by decide) (by decide)⟩

/-- C7: deleting the hex id of a stored record answers 200 with the message
and the echoed id, and the record's identifier no longer occurs in the
subsequent list response. -/
theorem delete_then_absent_from_list (s : Storage) (r0 : todoModel)
    (hmem : r0 ∈ s) (hvalid : ∀ r ∈ s, validOid r.ID) :
    ((deleteTodo (ObjectId.hex r0.ID) none s).1
      = ⟨statusOK, .msgId "Todo deleted succesfully!" (ObjectId.hex r0.ID)⟩)
    ∧ (∃ d, fetchTodos none (deleteTodo (ObjectId.hex r0.ID) none s).2
          = ⟨statusOK, .data d⟩
        ∧ ∀ x ∈ d, ¬ x.ID = ObjectId.hex r0.ID) := by
  have hv0 := hvalid r0 hmem
  have htrim : trimSpace (ObjectId.hex r0.ID) = ObjectId.hex r0.ID :=
    trimSpace_hex hv0
  have hhex : isObjectIdHex (ObjectId.hex r0.ID) = true :=
    isObjectIdHex_hex hv0
  have hparse : objectIdHex (ObjectId.hex r0.ID) = r0.ID := objectIdHex_hex hv0
  have hrem : removeId s (objectIdHex (ObjectId.hex r0.ID))
      = some (s.filter fun r => ¬ r.ID = r0.ID) := by
    rw [hparse]
    unfold removeId
    rw [if_pos (List.any_eq_true.mpr ⟨r0, hmem, by simp⟩)]
  have hdel : deleteTodo (ObjectId.hex r0.ID) none s
      = (⟨statusOK, .msgId "Todo deleted succesfully!" (ObjectId.hex r0.ID)⟩,
         s.filter fun r => ¬ r.ID = r0.ID) := by
    simp only [deleteTodo, htrim, hhex, Bool.not_true, Bool.false_eq_true,
      if_false, hrem]
  refine ⟨by rw [hdel], ?_⟩
  refine ⟨(s.filter fun r => ¬ r.ID = r0.ID).map
    (fun r => todo.mk (ObjectId.hex r.ID) r.Title r.Completed r.CreatedAt),
    by rw [hdel]; rfl, ?_⟩
  intro x hx hcontra
  obtain ⟨r, hr, rfl⟩ := List.mem_map.mp hx
  have hrmem : r ∈ s ∧ ¬ r.ID = r0.ID := by
    have := List.mem_filter.mp hr
    simpa using this
  have hcontra' : ObjectId.hex r.ID = ObjectId.hex r0.ID := hcontra
  have : r.ID = r0.ID := by
    have h1 := objectIdHex_hex (hvalid r hrmem.1)
    rw [← h1, hcontra', hparse]
  exact hrmem.2 this

/-- Witness for C7 over a one-record store. -/
theorem delete_then_absent_from_list_witness :
    ((⟨objectIdHex "0123456789abcdef01234567", "t", false, 3⟩ : todoModel)
        ∈ [(⟨objectIdHex "0123456789abcdef01234567", "t", false, 3⟩ : todoModel)])
    ∧ (∀ r ∈ [(⟨objectIdHex "0123456789abcdef01234567", "t", false, 3⟩ : todoModel)],
        validOid r.ID)
    ∧ ((deleteTodo (ObjectId.hex (objectIdHex "0123456789abcdef01234567")) none
          [⟨objectIdHex "0123456789abcdef01234567", "t", false, 3⟩]).1
        = ⟨statusOK, .msgId "Todo deleted succesfully!"
            (ObjectId.hex (objectIdHex "0123456789abcdef01234567"))⟩) := by
  have h := delete_then_absent_from_list
    [⟨objectIdHex "0123456789abcdef01234567", "t", false, 3⟩]
    ⟨objectIdHex "0123456789abcdef01234567", "t", false, 3⟩
    (by decide) (by decide)
  exact ⟨by decide, by decide, h.1⟩

/-- C8: a create request with a decodable body and non-empty title answers
201 carrying the generated identifier — 24 lowercase hex characters — and
the subsequent list contains a record with that identifier, the submitted
title and completed flag, and the server-assigned time. -/
theorem create_hex_id_and_roundtrip (t : todo) (freshId : ObjectId)
    (now : Nat) (s : Storage) (ht : ¬ t.Title = "") (hfid : validOid freshId) :
    ((createTodo (.ok t) freshId now none s).1
      = ⟨statusCreated, .msgId "Todo created successfully!"
          (ObjectId.hex freshId)⟩)
    ∧ ((ObjectId.hex freshId).data.length = 24)
    ∧ (∀ c ∈ (ObjectId.hex freshId).data, isLowerHexChar c = true)
    ∧ (∃ d, fetchTodos none (createTodo (.ok t) freshId now none s).2
          = ⟨statusOK, .data d⟩
        ∧ ⟨ObjectId.hex freshId, t.Title, t.Completed, now⟩ ∈ d) := by
  have hcreate : createTodo (.ok t) freshId now none s
      = (⟨statusCreated, .msgId "Todo created successfully!"
            (ObjectId.hex freshId)⟩,
         s ++ [⟨freshId, t.Title, t.Completed, now⟩]) := by
    simp [createTodo, ht, insertRecord]
  refine ⟨by rw [hcreate], ?_, ?_, ?_⟩
  · rw [hex_data, oidHexL_length, hfid.1]
  · rw [hex_data]; exact oidHexL_lowerHex hfid.2
  · refine ⟨(s ++ [(⟨freshId, t.Title, t.Completed, now⟩ : todoModel)]).map
      (fun r => todo.mk (ObjectId.hex r.ID) r.Title r.Completed r.CreatedAt),
      by rw [hcreate]; rfl, ?_⟩
    rw [List.map_append]
    simp

/-- Witness for C8 at a concrete valid fresh id over the empty store. -/
theorem create_hex_id_and_roundtrip_witness :
    (¬ ("task" : String) = "")
    ∧ validOid (objectIdHex "0123456789abcdef01234567")
    ∧ ((ObjectId.hex (objectIdHex "0123456789abcdef01234567")).data.length
        = 24)
    ∧ ((createTodo (.ok ⟨"", "task", true, 0⟩)
          (objectIdHex "0123456789abcdef01234567") 7 none []).1
        = ⟨statusCreated, .msgId "Todo created successfully!"
            (ObjectId.hex (objectIdHex "0123456789abcdef01234567"))⟩) := by
  have h := create_hex_id_and_roundtrip ⟨"", "task", true, 0⟩
    (objectIdHex "0123456789abcdef01234567") 7 [] (by decide) (by decide)
  exact ⟨by decide, by decide, h.2.1, h.1⟩

end GoTodo
